import Mathlib

/-!
Verification development for the SentinelWatch SIEM analysis pipeline.

The Lean definitions below are a shallow embedding of the Python sources:

* `backend/app/utils/helpers.py`        — `is_business_hours`
* `backend/app/utils/geolocation.py`    — `get_location`, `calculate_distance`,
                                          `_is_private_ip` (here `is_private_ip`)
* `backend/app/detection/rules.py`      — the brute-force, impossible-travel and
                                          privilege-escalation rules
* `backend/app/alerting/alert_manager.py` — `create_alert`, `acknowledge_alert`,
                                          `resolve_alert`
* `app/ingestion/ingestion_service.py`  — `ingest_single_log` (entry construction)

Modelling conventions:

* Wall-clock instants are integers (seconds since the Unix epoch, UTC); a
  Python `timedelta(minutes=W)` becomes `60 * W` seconds.
* Python floats are idealised as real numbers `ℝ`.
* Python `None` becomes `Option.none`; Python truthiness of a string is
  `≠ ""`, of a float is `≠ 0`, and of an optional is `Option.isSome`
  (combined with the value's own truthiness where the source relies on it).
* Database queries over the `log_entries` / `alerts` tables become pure
  functions over lists of records; SQL `NULL`-valued comparison columns
  compare unequal to every value, which `Option` equality against `some _`
  reproduces.
* External I/O (the MaxMind reader and the HTTP geolocation API) is passed in
  as an explicit oracle function; exceptions raised by an oracle appear as
  `Except.error` values, and an `Except ε` result type on an embedded
  function records which uncaught exceptions it can propagate.
-/

namespace SIEM

/-- Lowercasing of one character as performed by Python `str.lower` on the
ASCII range (the only range the SIEM's tokens use). -/
def pyCharLower (c : Char) : Char :=
  if 'A' ≤ c ∧ c ≤ 'Z' then Char.ofNat (c.toNat + 32) else c

/-- Python `str.lower` (ASCII range), character by character. -/
def pyLower (s : String) : String :=
  String.mk (s.data.map pyCharLower)

/-- A string is lowercase when it contains no ASCII uppercase letter; this is
the sense in which the spec requires `status` and `event_type` to be
lowercase tokens. -/
def isLowercaseStr (s : String) : Bool :=
  s.data.all fun c => !('A' ≤ c && c ≤ 'Z')

/-- Helper for substring search: does the second character list start with the
first one? -/
def leadsWithChars : List Char → List Char → Bool
  | [], _ => true
  | _ :: _, [] => false
  | a :: as, b :: bs => a == b && leadsWithChars as bs

/-- Helper for substring search over character lists (Python `needle in hay`
on strings: containment of a contiguous substring). -/
def strContainsChars (needle : List Char) : List Char → Bool
  | [] => needle.isEmpty
  | c :: rest => leadsWithChars needle (c :: rest) || strContainsChars needle rest

/-- Python `needle in hay` for strings. -/
def strContains (hay needle : String) : Bool :=
  strContainsChars needle.data hay.data

/-- Python `str.split(sep)` on character lists (single-character separator,
empty pieces preserved), used by `_is_private_ip` with separator `.`. -/
def splitOnCharAux (sep : Char) (acc : List Char) : List Char → List (List Char)
  | [] => [acc.reverse]
  | c :: rest =>
    if c == sep then acc.reverse :: splitOnCharAux sep [] rest
    else splitOnCharAux sep (c :: acc) rest

/-- Python `ip.split('.')` as a list of character lists. -/
def splitDots (s : String) : List (List Char) :=
  splitOnCharAux '.' [] s.data

/-- Value of a non-empty all-digit character list, `none` otherwise. -/
def digitsVal : List Char → Option Nat
  | [] => none
  | cs =>
    cs.foldl
      (fun acc c =>
        match acc with
        | none => none
        | some n => if '0' ≤ c ∧ c ≤ '9' then some (n * 10 + (c.toNat - 48)) else none)
      (some 0)

/-- Python `int(s)` on plain decimal literals (an optional sign followed by
digits). Python's `int` accepts a superset of these strings (surrounding
whitespace, underscore separators) and agrees with this model on all dotted
IPv4 octet strings; a `ValueError` is `none` here. -/
def pyInt : List Char → Option Int
  | '-' :: rest => (digitsVal rest).map fun n => -(n : Int)
  | '+' :: rest => (digitsVal rest).map fun n => (n : Int)
  | cs => (digitsVal cs).map fun n => (n : Int)

/-! ## Time helpers (`backend/app/utils/helpers.py`) -/

/-- Day of week of an epoch instant under the UTC interpretation the spec
pins down: Monday = 0 … Sunday = 6 (Python `datetime.weekday`; 1970-01-01
was a Thursday, weekday 3). -/
def weekdayOf (t : Int) : Int :=
  (Int.ediv t 86400 + 3).emod 7

/-- Hour of day (0–23) of an epoch instant, UTC (Python `datetime.hour`). -/
def hourOf (t : Int) : Int :=
  Int.ediv (Int.emod t 86400) 3600

/-- Embedding of `is_business_hours(timestamp, start_hour, end_hour)`:
false on Saturday/Sunday, otherwise `start_hour <= hour < end_hour`. -/
def is_business_hours (timestamp : Int) (start_hour end_hour : Int) : Bool :=
  if 5 ≤ weekdayOf timestamp then false
  else decide (start_hour ≤ hourOf timestamp) && decide (hourOf timestamp < end_hour)

/-! ## Geolocation resolver (`backend/app/utils/geolocation.py`) -/

/-- Result dictionary of `GeolocationService.get_location`. -/
structure GeoLocation where
  country_code : Option String := none
  latitude : Option ℝ := none
  longitude : Option ℝ := none
  city : Option String := none
  country_name : Option String := none

/-- The failure modes of a MaxMind `reader.city(ip)` lookup.
`addressNotFound` (`geoip2.errors.AddressNotFoundError`) and `valueError`
(`ValueError`) are the two exception classes `get_location` catches; `other`
stands for any further exception the lookup can raise — e.g. a `TypeError`
when the configured database is not a City database, or
`maxminddb.InvalidDatabaseError` on corrupt data — which the source's
narrow `except` clause does not catch. -/
inductive MaxMindLookupErr (ε : Type) : Type
  | addressNotFound
  | valueError
  | other (e : ε)

/-- Embedding of `GeolocationService._is_private_ip`: split on dots, require
four parts, parse the first two octets (`int` failure is a caught
`ValueError` giving `False`), and compare against the private/loopback
ranges. -/
def is_private_ip (ip : String) : Bool :=
  let parts := splitDots ip
  if parts.length ≠ 4 then false
  else
    match parts[0]?.bind pyInt, parts[1]?.bind pyInt with
    | some first_octet, some second_octet =>
      decide (first_octet = 10) ||
      (decide (first_octet = 172) && decide (16 ≤ second_octet) && decide (second_octet ≤ 31)) ||
      (decide (first_octet = 192) && decide (second_octet = 168)) ||
      decide (first_octet = 127)
    | _, _ => false

/-- The `ip-api.com` fallback block of `get_location`: `Except.ok (some loc)`
models an HTTP 200 response with `status == "success"`, `Except.ok none` a
response that is not usable, and `Except.error _` any raised exception —
every one of which the `try/except Exception` swallows into `None`. -/
def api_fallback {εapi : Type} (api : String → Except εapi (Option GeoLocation))
    (ip : String) : Option GeoLocation :=
  match api ip with
  | .ok r => r
  | .error _ => none

/-- Embedding of `GeolocationService.get_location`. `reader` is the optional
MaxMind database oracle and `api` the HTTP fallback oracle. The two lookup
exception classes the source's `except (AddressNotFoundError, ValueError)`
names fall through to the API fallback (whose own `try/except Exception`
swallows everything); any `other` lookup exception is uncaught there and
propagates out of `get_location` as an `Except.error`. -/
def get_location {εr εapi : Type}
    (reader : Option (String → Except (MaxMindLookupErr εr) GeoLocation))
    (api : String → Except εapi (Option GeoLocation)) (ip : String) :
    Except εr (Option GeoLocation) :=
  if is_private_ip ip then .ok none
  else
    match reader with
    | some rd =>
      match rd ip with
      | .ok loc => .ok (some loc)
      | .error .addressNotFound => .ok (api_fallback api ip)
      | .error .valueError => .ok (api_fallback api ip)
      | .error (.other e) => .error e
    | none => .ok (api_fallback api ip)

/-- Python `math.radians`. -/
noncomputable def radians (x : ℝ) : ℝ :=
  x * (Real.pi / 180)

/-- Python `math.atan2 y x` on the real numbers. -/
noncomputable def atan2 (y x : ℝ) : ℝ :=
  if 0 < x then Real.arctan (y / x)
  else if x < 0 then
    (if 0 ≤ y then Real.arctan (y / x) + Real.pi else Real.arctan (y / x) - Real.pi)
  else if 0 < y then Real.pi / 2
  else if y < 0 then -(Real.pi / 2)
  else 0

/-- The intermediate value `a` of `GeolocationService.calculate_distance`:
`sin(delta_lat/2)**2 + cos(lat1_rad)*cos(lat2_rad)*sin(delta_lon/2)**2`. -/
noncomputable def haversineA (lat1 lon1 lat2 lon2 : ℝ) : ℝ :=
  Real.sin (radians (lat2 - lat1) / 2) ^ 2 +
    Real.cos (radians lat1) * Real.cos (radians lat2) * Real.sin (radians (lon2 - lon1) / 2) ^ 2

/-- Embedding of `GeolocationService.calculate_distance`: the Haversine
formula with Earth radius 6371 km, `c = 2 * atan2(sqrt(a), sqrt(1 - a))`. -/
noncomputable def calculate_distance (lat1 lon1 lat2 lon2 : ℝ) : ℝ :=
  6371 * (2 * atan2 (Real.sqrt (haversineA lat1 lon1 lat2 lon2))
    (Real.sqrt (1 - haversineA lat1 lon1 lat2 lon2)))

/-! ## Data model

Modelled from the spec: the repository imports its persisted record types
(`LogEntry`, `Alert`) from `backend/app/models/database.py`, a module that is
not part of the sources at hand; the field lists below follow §3 of the
specification together with every column access the present sources make. -/

/-- Modelled from the spec: a normalized event record (`log_entries` table).
`timestamp` is an epoch instant, `latitude`/`longitude` idealise the stored
floats. -/
structure LogEntry where
  id : Nat := 0
  timestamp : Int
  source_ip : String := ""
  username : String := ""
  event_type : String := ""
  status : String := ""
  raw_log : String := ""
  source_file : Option String := none
  country_code : Option String := none
  latitude : Option ℝ := none
  longitude : Option ℝ := none

/-- Modelled from the spec: a persisted alert (`alerts` table). -/
structure Alert where
  alert_id : String
  rule_name : String
  severity : String
  description : String := ""
  context : Option String := none
  source_ip : Option String := none
  username : Option String := none
  log_entry_id : Option Nat := none
  triggered_at : Int
  acknowledged : Bool := false
  acknowledged_by : Option String := none
  acknowledged_at : Option Int := none
  resolved : Bool := false
  resolved_by : Option String := none
  resolved_at : Option Int := none

/-- The configuration fields of `backend/config/config.py` that the detection
rules read. -/
structure Settings where
  business_hours_start : Int := 8
  business_hours_end : Int := 18
  brute_force_threshold : Nat := 5
  brute_force_window_minutes : Int := 10
  ip_blacklist : List String := []

/-! ## Brute-force rule (`BruteForceDetectionRule.check`) -/

/-- The correlation count of `BruteForceDetectionRule.check`: stored events
with the same source IP, status `failed`, event type `login`, and timestamp
in the window `[e.timestamp - W, e.timestamp]`. -/
def bruteForceCount (s : Settings) (e : LogEntry) (db : List LogEntry) : Nat :=
  (db.filter fun x =>
    x.source_ip == e.source_ip &&
    x.status == "failed" &&
    x.event_type == "login" &&
    decide (e.timestamp - 60 * s.brute_force_window_minutes ≤ x.timestamp) &&
    decide (x.timestamp ≤ e.timestamp)).length

/-- The dedup query of `BruteForceDetectionRule.check`: an unresolved
`brute_force_login` alert for the same source IP with `triggered_at` at or
after the window start. -/
def hasRecentBruteForceAlert (s : Settings) (e : LogEntry) (alerts : List Alert) : Bool :=
  alerts.any fun a =>
    a.rule_name == "brute_force_login" &&
    a.source_ip == some e.source_ip &&
    decide (e.timestamp - 60 * s.brute_force_window_minutes ≤ a.triggered_at) &&
    a.resolved == false

/-- The `context` dictionary returned by `BruteForceDetectionRule.check`. -/
structure BruteForceContext where
  source_ip : String
  failed_attempts : Nat
  time_window_minutes : Int
  affected_users : List String

/-- Embedding of `BruteForceDetectionRule.check` (the human-readable
`description` string of the returned dictionary is presentation and is
omitted; the `context` payload is kept in full). -/
def brute_force_check (s : Settings) (e : LogEntry) (db : List LogEntry)
    (alerts : List Alert) : Option BruteForceContext :=
  if e.status ≠ "failed" ∨ e.event_type ≠ "login" then none
  else if e.source_ip = "" then none
  else
    let failed_count := bruteForceCount s e db
    if s.brute_force_threshold ≤ failed_count then
      if hasRecentBruteForceAlert s e alerts then none
      else
        some { source_ip := e.source_ip
               failed_attempts := failed_count
               time_window_minutes := s.brute_force_window_minutes
               affected_users := if e.username = "" then [] else [e.username] }
    else none

/-! ## Impossible-travel rule (`ImpossibleTravelDetectionRule.check`) -/

/-- The `order_by(timestamp.desc()).first()` step: the element of the list
holding the greatest timestamp (first such element on ties). -/
def latestByTimestamp (l : List LogEntry) : Option LogEntry :=
  l.foldl
    (fun acc x =>
      match acc with
      | none => some x
      | some y => if y.timestamp < x.timestamp then some x else acc)
    none

/-- The prior-login query of `ImpossibleTravelDetectionRule.check`: the most
recent stored event for the same username, successful login, timestamp in
`[e.timestamp - 1h, e.timestamp)`, from a different source IP, with a
non-null latitude. -/
def previousLoginQuery (e : LogEntry) (db : List LogEntry) : Option LogEntry :=
  latestByTimestamp (db.filter fun x =>
    x.username == e.username &&
    x.status == "success" &&
    x.event_type == "login" &&
    decide (e.timestamp - 3600 ≤ x.timestamp) &&
    decide (x.timestamp < e.timestamp) &&
    x.source_ip != e.source_ip &&
    x.latitude.isSome)

/-- The dedup query of `ImpossibleTravelDetectionRule.check`: an unresolved
`impossible_travel` alert for the same username triggered within the last
hour. -/
def hasRecentTravelAlert (e : LogEntry) (alerts : List Alert) : Bool :=
  alerts.any fun a =>
    a.rule_name == "impossible_travel" &&
    a.username == some e.username &&
    decide (e.timestamp - 3600 ≤ a.triggered_at) &&
    a.resolved == false

/-- The `context` payload returned by `ImpossibleTravelDetectionRule.check`
(string formatting and the 2-decimal rounding of the presented numbers are
presentation and are omitted; the underlying quantities are kept). -/
structure TravelContext where
  username : String
  previous_ip : String
  current_ip : String
  distance_km : ℝ
  time_hours : ℝ
  previous_timestamp : Int

/-- Embedding of `ImpossibleTravelDetectionRule.check`. `getLoc` is the
geolocation resolver (`geolocation_service.get_location` with its oracles
fixed). The guards mirror the Python truthiness tests: the current location
must carry a non-`None`, non-zero latitude, and the selected prior login
non-`None`, non-zero latitude and longitude. A current location whose
longitude is `None` makes the Python `radians(None)` raise a `TypeError`,
which `DetectionEngine.analyze` isolates; that path therefore yields no
alert and is embedded as `none`. -/
noncomputable def impossible_travel_check (getLoc : String → Option GeoLocation)
    (e : LogEntry) (db : List LogEntry) (alerts : List Alert) : Option TravelContext :=
  if e.status ≠ "success" ∨ e.event_type ≠ "login" then none
  else if e.username = "" ∨ e.source_ip = "" then none
  else
    match getLoc e.source_ip with
    | none => none
    | some current_location =>
      match current_location.latitude with
      | none => none
      | some cur_lat =>
        if cur_lat = 0 then none
        else
          match previousLoginQuery e db with
          | none => none
          | some previous_login =>
            match previous_login.latitude, previous_login.longitude with
            | some prev_lat, some prev_lon =>
              if prev_lat = 0 ∨ prev_lon = 0 then none
              else
                match current_location.longitude with
                | none => none
                | some cur_lon =>
                  let distance := calculate_distance prev_lat prev_lon cur_lat cur_lon
                  let hours_diff := ((e.timestamp - previous_login.timestamp : Int) : ℝ) / 3600
                  if 1000 ≤ distance ∧ hours_diff < distance / 800 then
                    if hasRecentTravelAlert e alerts then none
                    else
                      some { username := e.username
                             previous_ip := previous_login.source_ip
                             current_ip := e.source_ip
                             distance_km := distance
                             time_hours := hours_diff
                             previous_timestamp := previous_login.timestamp }
                  else none
            | _, _ => none

/-! ## Privilege-escalation rule (`PrivilegeEscalationDetectionRule.check`) -/

/-- The event types that trigger the rule unconditionally. -/
def escalationEventTypes : List String :=
  ["privilege_escalation", "admin_access", "sudo", "su"]

/-- The escalation keyword list, in source order. -/
def escalation_keywords : List String :=
  ["sudo", "su", "admin", "root", "elevate", "privilege", "runas", "impersonate", "escalate"]

/-- The dedup query of `PrivilegeEscalationDetectionRule.check`: an
unresolved `privilege_escalation` alert for the same username triggered in
the last 30 minutes. -/
def hasRecentEscalationAlert (e : LogEntry) (alerts : List Alert) : Bool :=
  alerts.any fun a =>
    a.rule_name == "privilege_escalation" &&
    a.username == some e.username &&
    decide (e.timestamp - 1800 ≤ a.triggered_at) &&
    a.resolved == false

/-- The `context` payload returned by `PrivilegeEscalationDetectionRule.check`
(`keyword` is absent on the unconditional event-type branch). -/
structure EscalationContext where
  username : String
  source_ip : String
  keyword : Option String
  event_type : String
  status : String
  raw_log_snippet : Option String

/-- The keyword loop of `PrivilegeEscalationDetectionRule.check`: the first
keyword contained in the lowercased raw log returns a context unless the
dedup query finds a recent alert, in which case the loop continues (the
dedup query does not depend on the keyword, so a recent alert suppresses
every keyword). -/
def escalationKeywordLoop (e : LogEntry) (alerts : List Alert) (log_lower : String) :
    List String → Option EscalationContext
  | [] => none
  | kw :: rest =>
    if strContains log_lower kw then
      if hasRecentEscalationAlert e alerts then escalationKeywordLoop e alerts log_lower rest
      else
        some { username := e.username
               source_ip := e.source_ip
               keyword := some kw
               event_type := e.event_type
               status := e.status
               raw_log_snippet := some (e.raw_log.take 500) }
    else escalationKeywordLoop e alerts log_lower rest

/-- Embedding of `PrivilegeEscalationDetectionRule.check` (descriptions
omitted as presentation, context kept). -/
def privilege_escalation_check (e : LogEntry) (alerts : List Alert) : Option EscalationContext :=
  if e.event_type ∈ escalationEventTypes then
    some { username := e.username
           source_ip := e.source_ip
           keyword := none
           event_type := e.event_type
           status := e.status
           raw_log_snippet := if e.raw_log = "" then none else some (e.raw_log.take 500) }
  else if e.raw_log = "" then none
  else escalationKeywordLoop e alerts (pyLower e.raw_log) escalation_keywords

/-! ## Alert manager (`backend/app/alerting/alert_manager.py`) -/

/-- Python `analyst or "System"`: `None` and the empty string fall back to
`"System"`. -/
def analystOrSystem (analyst : Option String) : String :=
  match analyst with
  | some s => if s = "" then "System" else s
  | none => "System"

/-- Embedding of `AlertManager.create_alert`: derives `source_ip`,
`username` and `log_entry_id` from the originating event when not passed
truthy, stamps `triggered_at`, and initialises the lifecycle flags to
`false`. `aid` stands for the freshly minted UUID and `now` for
`datetime.utcnow()`. -/
def create_alert (rule_name severity description : String) (context : Option String)
    (log_entry : Option LogEntry) (source_ip username : Option String)
    (now : Int) (aid : String) : Alert :=
  match log_entry with
  | some le =>
    { alert_id := aid
      rule_name := rule_name
      severity := severity
      description := description
      context := context
      source_ip := some (match source_ip with
        | some s => if s = "" then le.source_ip else s
        | none => le.source_ip)
      username := some (match username with
        | some u => if u = "" then le.username else u
        | none => le.username)
      log_entry_id := some le.id
      triggered_at := now
      acknowledged := false
      resolved := false }
  | none =>
    { alert_id := aid
      rule_name := rule_name
      severity := severity
      description := description
      context := context
      source_ip := source_ip
      username := username
      log_entry_id := none
      triggered_at := now
      acknowledged := false
      resolved := false }

/-- The field mutation performed by `AlertManager.acknowledge_alert` on the
alert it finds. -/
def acknowledge_update (analyst : Option String) (now : Int) (a : Alert) : Alert :=
  { a with acknowledged := true
           acknowledged_by := some (analystOrSystem analyst)
           acknowledged_at := some now }

/-- The field mutation performed by `AlertManager.resolve_alert` on the alert
it finds: sets `resolved` and `acknowledged`, fills `resolved_by/_at`, and
fills `acknowledged_by/_at` only when `acknowledged_at` was unset (a stored
timestamp is always truthy in Python, `None` is not). -/
def resolve_update (analyst : Option String) (now : Int) (a : Alert) : Alert :=
  let a1 := { a with resolved := true
                     acknowledged := true
                     resolved_by := some (analystOrSystem analyst)
                     resolved_at := some now }
  if a1.acknowledged_at = none then
    { a1 with acknowledged_at := some now
              acknowledged_by := some (analystOrSystem analyst) }
  else a1

/-- Update the first list element satisfying the predicate (the
`query(...).filter(...).first()` row that the manager mutates and commits). -/
def updateFirstMatching (p : Alert → Bool) (f : Alert → Alert) : List Alert → List Alert
  | [] => []
  | a :: rest => if p a then f a :: rest else a :: updateFirstMatching p f rest

/-- Embedding of `AlertManager.acknowledge_alert` on the alert store: the
first alert carrying `alert_id` is acknowledged; an absent id leaves the
store unchanged. -/
def acknowledge_alert (aid : String) (analyst : Option String) (now : Int)
    (db : List Alert) : List Alert :=
  updateFirstMatching (fun a => a.alert_id == aid) (acknowledge_update analyst now) db

/-- Embedding of `AlertManager.resolve_alert` on the alert store. -/
def resolve_alert (aid : String) (analyst : Option String) (now : Int)
    (db : List Alert) : List Alert :=
  updateFirstMatching (fun a => a.alert_id == aid) (resolve_update analyst now) db

/-- Alert states reachable through the manager's operations: freshly created
by `create_alert`, or the result of an acknowledge or resolve mutation on a
reachable state. -/
inductive ReachableAlert : Alert → Prop
  | created (rule_name severity description : String) (context : Option String)
      (log_entry : Option LogEntry) (source_ip username : Option String)
      (now : Int) (aid : String) :
      ReachableAlert (create_alert rule_name severity description context
        log_entry source_ip username now aid)
  | acknowledged (a : Alert) (analyst : Option String) (now : Int) :
      ReachableAlert a → ReachableAlert (acknowledge_update analyst now a)
  | resolvedStep (a : Alert) (analyst : Option String) (now : Int) :
      ReachableAlert a → ReachableAlert (resolve_update analyst now a)

/-! ## Single structured-event ingestion (`IngestionService.ingest_single_log`) -/

/-- The request payload of `ingest_single_log` (the `timestamp` field stands
for the already parsed instant; `parse_timestamp` string handling is outside
the claims under study, and an unparseable or missing timestamp falls back
to the ingest wall clock `now`). -/
structure LogData where
  timestamp : Option Int := none
  source_ip : Option String := none
  username : Option String := none
  event_type : Option String := none
  status : Option String := none
  raw_log : Option String := none

/-- Embedding of the `LogEntry` construction inside
`IngestionService.ingest_single_log`: fields are stored exactly as supplied
(with the source defaults), and geolocation is attached from the resolver.
Note that, unlike `LogParser.parse_line`, no `.lower()` is applied to
`event_type` or `status`. -/
def ingest_single_log (getLoc : String → Option GeoLocation) (now : Int)
    (log_data : LogData) : LogEntry :=
  let source_ip := log_data.source_ip.getD ""
  let location_data := if source_ip = "" then none else getLoc source_ip
  { timestamp := log_data.timestamp.getD now
    source_ip := source_ip
    username := log_data.username.getD ""
    event_type := log_data.event_type.getD "authentication"
    status := log_data.status.getD "unknown"
    raw_log := log_data.raw_log.getD ""
    country_code := location_data.bind fun l => l.country_code
    latitude := location_data.bind fun l => l.latitude
    longitude := location_data.bind fun l => l.longitude }

/-! ## Concrete records used by the closed witness instances -/

/-- Settings with a brute-force threshold of one, for a small closed witness. -/
def bfSettings : Settings :=
  { brute_force_threshold := 1 }

/-- A failed login event from a fixed IP. -/
def bfEvent : LogEntry :=
  { timestamp := 1000, source_ip := "9.9.9.9", username := "bob",
    event_type := "login", status := "failed" }

/-- An event whose type is in the unconditional escalation set. -/
def peEvent : LogEntry :=
  { timestamp := 0, source_ip := "8.8.8.8", username := "root",
    event_type := "sudo", status := "success" }

/-- A resolver result with a non-zero latitude. -/
def itLoc : GeoLocation :=
  { latitude := some 1, longitude := some 2 }

/-- A resolver result whose latitude is the (falsy) float zero. -/
def itLocZero : GeoLocation :=
  { latitude := some 0, longitude := some 2 }

/-- A successful login half an hour after `itPrev`, from another IP. -/
def itEvent : LogEntry :=
  { timestamp := 7200, source_ip := "2.2.2.2", username := "alice",
    event_type := "login", status := "success" }

/-- A stored successful login with coordinates, eligible as prior login. -/
def itPrev : LogEntry :=
  { timestamp := 5400, source_ip := "1.1.1.1", username := "alice",
    event_type := "login", status := "success", latitude := some 3, longitude := some 4 }

/-! ## Theorems -/

/-- C5: acknowledging an alert twice leaves the alert store in the same state
as acknowledging it once: the second acknowledge overwrites exactly the
fields the first one set, so the composite equals a single acknowledge (in
particular, at equal wall-clock instants the operation is idempotent). -/
theorem acknowledge_alert_idempotent (aid : String) (analyst : Option String)
    (t1 t2 : Int) (db : List Alert) :
    acknowledge_alert aid analyst t2 (acknowledge_alert aid analyst t1 db) =
      acknowledge_alert aid analyst t2 db := by
  induction db with
  | nil => rfl
  | cons a rest ih =>
    simp only [acknowledge_alert, updateFirstMatching] at ih ⊢
    by_cases h : (a.alert_id == aid) = true
    · rw [if_pos h]
      rw [show updateFirstMatching (fun x => x.alert_id == aid)
            (acknowledge_update analyst t2) (acknowledge_update analyst t1 a :: rest) =
          if ((acknowledge_update analyst t1 a).alert_id == aid) = true then
            acknowledge_update analyst t2 (acknowledge_update analyst t1 a) :: rest
          else acknowledge_update analyst t1 a ::
            updateFirstMatching (fun x => x.alert_id == aid)
              (acknowledge_update analyst t2) rest from rfl]
      rw [if_pos (show ((acknowledge_update analyst t1 a).alert_id == aid) = true from h),
        if_pos h]
      rfl
    · rw [if_neg h]
      rw [show updateFirstMatching (fun x => x.alert_id == aid)
            (acknowledge_update analyst t2)
            (a :: updateFirstMatching (fun x => x.alert_id == aid)
              (acknowledge_update analyst t1) rest) =
          if (a.alert_id == aid) = true then
            acknowledge_update analyst t2 a ::
              updateFirstMatching (fun x => x.alert_id == aid)
                (acknowledge_update analyst t1) rest
          else a :: updateFirstMatching (fun x => x.alert_id == aid)
            (acknowledge_update analyst t2)
            (updateFirstMatching (fun x => x.alert_id == aid)
              (acknowledge_update analyst t1) rest) from rfl]
      rw [if_neg h, if_neg h, ih]

/-- C7: `is_business_hours` is false on Saturday (weekday 5) and Sunday
(weekday 6), and on a weekday it is true exactly when the instant's hour
lies in `[start_hour, end_hour)`. -/
theorem is_business_hours_spec (t start_hour end_hour : Int)
    (hlt : start_hour < end_hour) :
    (weekdayOf t = 5 ∨ weekdayOf t = 6 → is_business_hours t start_hour end_hour = false) ∧
    (¬(weekdayOf t = 5 ∨ weekdayOf t = 6) →
      (is_business_hours t start_hour end_hour = true ↔
        start_hour ≤ hourOf t ∧ hourOf t < end_hour)) := by
  constructor
  · intro hw
    have h5 : (5:Int) ≤ weekdayOf t := by omega
    simp [is_business_hours, h5]
  · intro hw
    have hrange : 0 ≤ weekdayOf t ∧ weekdayOf t < 7 := by
      unfold weekdayOf
      constructor
      · exact Int.emod_nonneg _ (by norm_num)
      · exact Int.emod_lt_of_pos _ (by norm_num)
    have h5 : ¬(5:Int) ≤ weekdayOf t := by omega
    simp [is_business_hours, h5]

/-- C3 (code bug evidence): the `LogEntry` constructed by
`IngestionService.ingest_single_log` keeps `status` and `event_type` exactly
as supplied, so an uppercase payload produces a stored event whose `status`
and `event_type` are not lowercase — contradicting the spec invariant that
every stored event's `status` and `event_type` are lowercase (the line
parser's `.lower()` normalisation has no counterpart here). -/
theorem ingest_single_log_preserves_case :
    (ingest_single_log (fun _ => none) 0
      { source_ip := some "203.0.113.7", username := some "bob",
        event_type := some "LOGIN", status := some "FAILED" }).status = "FAILED" ∧
    (ingest_single_log (fun _ => none) 0
      { source_ip := some "203.0.113.7", username := some "bob",
        event_type := some "LOGIN", status := some "FAILED" }).event_type = "LOGIN" ∧
    isLowercaseStr "FAILED" = false ∧ isLowercaseStr "LOGIN" = false :=
  ⟨rfl, rfl, by decide, by decide⟩

/-- Closed instance for the business-hours theorem: the Unix epoch fell on a
Thursday at hour 0. -/
theorem is_business_hours_spec_witness :
    (8:Int) < 18 ∧ ¬(weekdayOf 0 = 5 ∨ weekdayOf 0 = 6) ∧
    (is_business_hours 0 8 18 = true ↔ 8 ≤ hourOf 0 ∧ hourOf 0 < 18) :=
  ⟨by decide, by decide, (is_business_hours_spec 0 8 18 (by decide)).2 (by decide)⟩

/-- C1: for a failed login with a non-empty source IP, the brute-force rule
returns an alert specification exactly when the windowed failed-login count
reaches the threshold and the dedup query finds no recent unresolved
`brute_force_login` alert for the IP; the returned context's
`failed_attempts` equals that count. -/
theorem brute_force_rule_spec (s : Settings) (e : LogEntry) (db : List LogEntry)
    (alerts : List Alert)
    (h1 : e.status = "failed") (h2 : e.event_type = "login") (h3 : e.source_ip ≠ "") :
    ((∃ ctx, brute_force_check s e db alerts = some ctx) ↔
      (s.brute_force_threshold ≤ bruteForceCount s e db ∧
        hasRecentBruteForceAlert s e alerts = false)) ∧
    (∀ ctx, brute_force_check s e db alerts = some ctx →
      ctx.failed_attempts = bruteForceCount s e db) := by
  have hcond : ¬(e.status ≠ "failed" ∨ e.event_type ≠ "login") := by simp [h1, h2]
  simp only [brute_force_check]
  rw [if_neg hcond, if_neg h3]
  by_cases hth : s.brute_force_threshold ≤ bruteForceCount s e db
  · rw [if_pos hth]
    by_cases hr : hasRecentBruteForceAlert s e alerts = true
    · rw [if_pos hr]
      refine ⟨⟨fun h4 => ?_, fun h4 => ?_⟩, fun ctx hctx => by cases hctx⟩
      · obtain ⟨ctx, hctx⟩ := h4; cases hctx
      · rw [hr] at h4; cases h4.2
    · rw [if_neg hr]
      refine ⟨⟨fun _ => ⟨hth, by simpa using hr⟩, fun _ => ⟨_, rfl⟩⟩, fun ctx hctx => ?_⟩
      injection hctx with h5
      rw [← h5]
  · rw [if_neg hth]
    refine ⟨⟨fun h4 => ?_, fun h4 => absurd h4.1 hth⟩, fun ctx hctx => by cases hctx⟩
    obtain ⟨ctx, hctx⟩ := h4; cases hctx

/-- Closed instance for the brute-force theorem: with threshold 1 a single
failed login triggers. -/
theorem brute_force_rule_spec_witness :
    bfEvent.status = "failed" ∧ bfEvent.event_type = "login" ∧ bfEvent.source_ip ≠ "" ∧
    ((∃ ctx, brute_force_check bfSettings bfEvent [bfEvent] [] = some ctx) ↔
      (bfSettings.brute_force_threshold ≤ bruteForceCount bfSettings bfEvent [bfEvent] ∧
        hasRecentBruteForceAlert bfSettings bfEvent [] = false)) :=
  ⟨rfl, rfl, by decide,
    (brute_force_rule_spec bfSettings bfEvent [bfEvent] [] rfl rfl (by decide)).1⟩

/-- The keyword loop of the privilege-escalation rule yields a context
exactly when some keyword of the list occurs in the lowercased log and the
dedup query finds nothing; any returned context carries a matching keyword
and the 500-character log snippet. -/
theorem escalationKeywordLoop_spec (e : LogEntry) (alerts : List Alert) (ll : String)
    (kws : List String) :
    ((∃ ctx, escalationKeywordLoop e alerts ll kws = some ctx) ↔
      ((∃ kw, kw ∈ kws ∧ strContains ll kw = true) ∧
        hasRecentEscalationAlert e alerts = false)) ∧
    (∀ ctx, escalationKeywordLoop e alerts ll kws = some ctx →
      ∃ kw, kw ∈ kws ∧ ctx.keyword = some kw ∧ strContains ll kw = true ∧
        ctx.raw_log_snippet = some (e.raw_log.take 500)) := by
  induction kws with
  | nil =>
    refine ⟨⟨fun h4 => ?_, fun h4 => ?_⟩, fun ctx hctx => by cases hctx⟩
    · obtain ⟨ctx, hctx⟩ := h4; cases hctx
    · obtain ⟨⟨kw, hkw, -⟩, -⟩ := h4; cases hkw
  | cons kw rest ih =>
    by_cases hc : strContains ll kw = true
    · by_cases hr : hasRecentEscalationAlert e alerts = true
      · have hstep : escalationKeywordLoop e alerts ll (kw :: rest) =
            escalationKeywordLoop e alerts ll rest := by
          simp [escalationKeywordLoop, hc, hr]
        rw [hstep]
        refine ⟨⟨fun h4 => ?_, fun h4 => ?_⟩, fun ctx hctx => ?_⟩
        · obtain ⟨-, hf⟩ := ih.1.mp h4
          rw [hr] at hf; cases hf
        · obtain ⟨-, hf⟩ := h4
          rw [hr] at hf; cases hf
        · obtain ⟨kw2, hmem, hrest⟩ := ih.2 ctx hctx
          exact ⟨kw2, List.mem_cons_of_mem _ hmem, hrest⟩
      · have hstep : escalationKeywordLoop e alerts ll (kw :: rest) =
            some { username := e.username, source_ip := e.source_ip, keyword := some kw,
                   event_type := e.event_type, status := e.status,
                   raw_log_snippet := some (e.raw_log.take 500) } := by
          simp [escalationKeywordLoop, hc, hr]
        rw [hstep]
        refine ⟨⟨fun _ => ⟨⟨kw, List.mem_cons_self _ _, hc⟩, by simpa using hr⟩,
          fun _ => ⟨_, rfl⟩⟩, fun ctx hctx => ?_⟩
        injection hctx with h5
        exact ⟨kw, List.mem_cons_self _ _, by rw [← h5], hc, by rw [← h5]⟩
    · have hstep : escalationKeywordLoop e alerts ll (kw :: rest) =
          escalationKeywordLoop e alerts ll rest := by
        simp [escalationKeywordLoop, hc]
      rw [hstep]
      refine ⟨⟨fun h4 => ?_, fun h4 => ?_⟩, fun ctx hctx => ?_⟩
      · obtain ⟨⟨kw2, hmem, hs⟩, hf⟩ := ih.1.mp h4
        exact ⟨⟨kw2, List.mem_cons_of_mem _ hmem, hs⟩, hf⟩
      · obtain ⟨⟨kw2, hmem, hs⟩, hf⟩ := h4
        rcases List.mem_cons.mp hmem with h9 | h9
        · subst h9; exact absurd hs hc
        · exact ih.1.mpr ⟨⟨kw2, h9, hs⟩, hf⟩
      · obtain ⟨kw2, hmem, hrest⟩ := ih.2 ctx hctx
        exact ⟨kw2, List.mem_cons_of_mem _ hmem, hrest⟩

/-- C4: the privilege-escalation rule triggers unconditionally — and
independently of the alert store, hence with no dedup — on the four
escalation event types; otherwise it triggers exactly when the lowercased
raw log contains one of the escalation keywords and no unresolved
`privilege_escalation` alert for the username exists in the preceding 30
minutes, and then the context carries the matching keyword and the first
500 characters of the raw log. -/
theorem privilege_escalation_rule_spec (e : LogEntry) (alerts alerts2 : List Alert) :
    (e.event_type ∈ escalationEventTypes →
      (privilege_escalation_check e alerts =
        some { username := e.username, source_ip := e.source_ip, keyword := none,
               event_type := e.event_type, status := e.status,
               raw_log_snippet := if e.raw_log = "" then none
                 else some (e.raw_log.take 500) } ∧
       privilege_escalation_check e alerts = privilege_escalation_check e alerts2)) ∧
    (e.event_type ∉ escalationEventTypes →
      (((∃ ctx, privilege_escalation_check e alerts = some ctx) ↔
        ((∃ kw, kw ∈ escalation_keywords ∧ strContains (pyLower e.raw_log) kw = true) ∧
          hasRecentEscalationAlert e alerts = false)) ∧
       (∀ ctx, privilege_escalation_check e alerts = some ctx →
        ∃ kw, kw ∈ escalation_keywords ∧ ctx.keyword = some kw ∧
          strContains (pyLower e.raw_log) kw = true ∧
          ctx.raw_log_snippet = some (e.raw_log.take 500)))) := by
  constructor
  · intro hmem
    unfold privilege_escalation_check
    rw [if_pos hmem, if_pos hmem]
    exact ⟨rfl, rfl⟩
  · intro hmem
    unfold privilege_escalation_check
    rw [if_neg hmem]
    by_cases hraw : e.raw_log = ""
    · rw [if_pos hraw]
      refine ⟨⟨fun h4 => ?_, fun h4 => ?_⟩, fun ctx hctx => by cases hctx⟩
      · obtain ⟨ctx, hctx⟩ := h4; cases hctx
      · obtain ⟨⟨kw, hkw, hs⟩, -⟩ := h4
        rw [hraw] at hs
        simp only [escalation_keywords, List.mem_cons, List.not_mem_nil, or_false] at hkw
        rcases hkw with rfl | rfl | rfl | rfl | rfl | rfl | rfl | rfl | rfl <;>
          exact absurd hs (by decide)
    · rw [if_neg hraw]
      exact escalationKeywordLoop_spec e alerts (pyLower e.raw_log) escalation_keywords

/-- Closed instance for the privilege-escalation theorem: an event of type
`sudo` triggers unconditionally. -/
theorem privilege_escalation_rule_spec_witness :
    peEvent.event_type ∈ escalationEventTypes ∧
    privilege_escalation_check peEvent [] =
      some { username := peEvent.username, source_ip := peEvent.source_ip, keyword := none,
             event_type := peEvent.event_type, status := peEvent.status,
             raw_log_snippet := if peEvent.raw_log = "" then none
               else some (peEvent.raw_log.take 500) } :=
  ⟨by decide, ((privilege_escalation_rule_spec peEvent [] []).1 (by decide)).1⟩

/-- C8 (counterexample to the claim as stated): with a configured MaxMind
reader whose lookup raises an exception outside the two caught classes — as
`reader.city` does on a non-City or corrupt database — `get_location`
propagates the exception on a public address instead of returning a value,
so it is not the case that `get_location` never raises for every input
string. -/
theorem get_location_propagates_reader_exception :
    @get_location Unit Unit
        (some fun _ => Except.error (MaxMindLookupErr.other ()))
        (fun _ => Except.ok none) "8.8.8.8" = Except.error () ∧
    ¬ ∃ r, @get_location Unit Unit
        (some fun _ => Except.error (MaxMindLookupErr.other ()))
        (fun _ => Except.ok none) "8.8.8.8" = Except.ok r := by
  constructor
  · rfl
  · rintro ⟨r, hr⟩
    rw [show @get_location Unit Unit
        (some fun _ => Except.error (MaxMindLookupErr.other ()))
        (fun _ => Except.ok none) "8.8.8.8" = Except.error () from rfl] at hr
    cases hr

/-- C8 (amended): `get_location` answers `none` on every dotted-quad string
whose first octets place it in 10.0.0.0/8, 172.16.0.0/12, 192.168.0.0/16 or
127.0.0.0/8 — uniformly in the database and API oracles, i.e. without
consulting either and with no possibility of raising — and on any input
string it either returns a value or propagates exactly an uncaught lookup
exception (neither `AddressNotFoundError` nor `ValueError`) of a configured
MaxMind reader; in particular it never raises when no reader is
configured. -/
theorem get_location_private_ip_spec {εr εapi : Type}
    (reader : Option (String → Except (MaxMindLookupErr εr) GeoLocation))
    (api : String → Except εapi (Option GeoLocation)) :
    (∀ ip o1 o2 c0 c1 c2 c3,
      splitDots ip = [c0, c1, c2, c3] →
      pyInt c0 = some o1 → pyInt c1 = some o2 →
      (o1 = 10 ∨ (o1 = 172 ∧ 16 ≤ o2 ∧ o2 ≤ 31) ∨ (o1 = 192 ∧ o2 = 168) ∨ o1 = 127) →
      @get_location εr εapi reader api ip = Except.ok none) ∧
    (∀ ip, (∃ r, @get_location εr εapi reader api ip = Except.ok r) ∨
      (∃ rd e, reader = some rd ∧ rd ip = Except.error (MaxMindLookupErr.other e) ∧
        @get_location εr εapi reader api ip = Except.error e)) := by
  constructor
  · intro ip o1 o2 c0 c1 c2 c3 hsplit h0 h1 hrange
    have hpriv : is_private_ip ip = true := by
      simp only [is_private_ip, hsplit]
      norm_num
      simp only [List.getElem?_cons_zero, List.getElem?_cons_succ, Option.some_bind, h0, h1]
      rcases hrange with h | ⟨ha, hb, hc⟩ | ⟨ha, hb⟩ | h <;> simp [*]
    unfold get_location
    rw [if_pos hpriv]
  · intro ip
    by_cases hp : is_private_ip ip = true
    · refine Or.inl ⟨none, ?_⟩
      unfold get_location
      rw [if_pos hp]
    · cases reader with
      | none =>
        refine Or.inl ⟨api_fallback api ip, ?_⟩
        unfold get_location
        rw [if_neg hp]
      | some rd =>
        cases hrd : rd ip with
        | ok loc =>
          refine Or.inl ⟨some loc, ?_⟩
          unfold get_location
          rw [if_neg hp]
          simp [hrd]
        | error err =>
          cases err with
          | addressNotFound =>
            refine Or.inl ⟨api_fallback api ip, ?_⟩
            unfold get_location
            rw [if_neg hp]
            simp [hrd]
          | valueError =>
            refine Or.inl ⟨api_fallback api ip, ?_⟩
            unfold get_location
            rw [if_neg hp]
            simp [hrd]
          | other e =>
            refine Or.inr ⟨rd, e, rfl, hrd, ?_⟩
            unfold get_location
            rw [if_neg hp]
            simp [hrd]

/-- Closed instance for the private-IP theorem at `10.0.0.5`. -/
theorem get_location_private_ip_spec_witness :
    splitDots "10.0.0.5" = [['1','0'], ['0'], ['0'], ['5']] ∧
    pyInt ['1','0'] = some 10 ∧ pyInt ['0'] = some 0 ∧
    @get_location Unit Unit none (fun _ => Except.ok none) "10.0.0.5" = Except.ok none :=
  ⟨by decide, by decide, by decide,
    (@get_location_private_ip_spec Unit Unit none (fun _ => Except.ok none)).1
      "10.0.0.5" 10 0 ['1','0'] ['0'] ['0'] ['5'] (by decide) (by decide) (by decide)
      (Or.inl rfl)⟩

/-- Invariant of every reachable alert state, including the auxiliary fact
that an unacknowledged reachable alert has no acknowledgement timestamp. -/
theorem reachable_alert_invariant (a : Alert) (h : ReachableAlert a) :
    (a.resolved = true → a.acknowledged = true) ∧
    (a.resolved = true → a.resolved_at ≠ none) ∧
    (a.acknowledged = true → a.acknowledged_at ≠ none) ∧
    (a.acknowledged = false → a.acknowledged_at = none) := by
  induction h with
  | created rn sv ds ctx le sip un now aid =>
    cases le <;> simp [create_alert]
  | acknowledged a analyst now h ih =>
    refine ⟨fun _ => rfl, fun hres => ih.2.1 hres, fun _ => by simp [acknowledge_update],
      fun hf => ?_⟩
    simp [acknowledge_update] at hf
  | resolvedStep a analyst now h ih =>
    by_cases hat : a.acknowledged_at = none
    · simp [resolve_update, hat]
    · simp [resolve_update, hat]

/-- C6: every alert state reachable through `create_alert`,
`acknowledge_alert` and `resolve_alert` satisfies `resolved ⇒ acknowledged`,
`resolved ⇒ resolved_at ≠ null` and `acknowledged ⇒ acknowledged_at ≠ null`;
and resolving a not-previously-acknowledged reachable alert also sets
`acknowledged`, `acknowledged_by` and `acknowledged_at`. -/
theorem alert_lifecycle_invariant (a : Alert) (h : ReachableAlert a) :
    ((a.resolved = true → a.acknowledged = true) ∧
     (a.resolved = true → a.resolved_at ≠ none) ∧
     (a.acknowledged = true → a.acknowledged_at ≠ none)) ∧
    (a.acknowledged = false → ∀ analyst now,
      (resolve_update analyst now a).resolved = true ∧
      (resolve_update analyst now a).acknowledged = true ∧
      (resolve_update analyst now a).acknowledged_by = some (analystOrSystem analyst) ∧
      (resolve_update analyst now a).acknowledged_at = some now) := by
  obtain ⟨i1, i2, i3, i4⟩ := reachable_alert_invariant a h
  refine ⟨⟨i1, i2, i3⟩, fun hack analyst now => ?_⟩
  have hat : a.acknowledged_at = none := i4 hack
  refine ⟨?_, ?_, ?_, ?_⟩ <;> simp [resolve_update, hat]

/-- Closed instance for the lifecycle theorem: resolving a freshly created
(hence unacknowledged) alert fills the acknowledgement fields. -/
theorem alert_lifecycle_invariant_witness :
    ReachableAlert (create_alert "brute_force_login" "High" "d" none none none none 0 "a-1") ∧
    (create_alert "brute_force_login" "High" "d" none none none none 0 "a-1").acknowledged
      = false ∧
    (resolve_update (some "carol") 5
      (create_alert "brute_force_login" "High" "d" none none none none 0 "a-1")).acknowledged_at
      = some 5 :=
  ⟨ReachableAlert.created "brute_force_login" "High" "d" none none none none 0 "a-1", rfl,
    ((alert_lifecycle_invariant _
      (ReachableAlert.created "brute_force_login" "High" "d" none none none none 0 "a-1")).2
      rfl (some "carol") 5).2.2.2⟩

/-- The haversine intermediate `a` is symmetric in the two points. -/
theorem haversineA_symm (lat1 lon1 lat2 lon2 : ℝ) :
    haversineA lat2 lon2 lat1 lon1 = haversineA lat1 lon1 lat2 lon2 := by
  unfold haversineA
  rw [show radians (lat1 - lat2) = -(radians (lat2 - lat1)) by unfold radians; ring,
    show radians (lon1 - lon2) = -(radians (lon2 - lon1)) by unfold radians; ring,
    neg_div, neg_div, Real.sin_neg, Real.sin_neg]
  ring

/-- The haversine intermediate `a` vanishes on coincident points. -/
theorem haversineA_self (lat lon : ℝ) : haversineA lat lon lat lon = 0 := by
  unfold haversineA radians
  simp

/-- `atan2` is non-negative whenever its first argument is. -/
theorem atan2_nonneg (y x : ℝ) (hy : 0 ≤ y) : 0 ≤ atan2 y x := by
  unfold atan2
  by_cases h1 : 0 < x
  · rw [if_pos h1]
    have hq : (0:ℝ) ≤ y / x := div_nonneg hy h1.le
    calc (0:ℝ) = Real.arctan 0 := Real.arctan_zero.symm
    _ ≤ Real.arctan (y / x) := Real.arctan_strictMono.monotone hq
  · rw [if_neg h1]
    by_cases h2 : x < 0
    · rw [if_pos h2, if_pos hy]
      have h6 := Real.neg_pi_div_two_lt_arctan (y / x)
      have h7 := Real.pi_pos
      linarith
    · rw [if_neg h2]
      by_cases h3 : 0 < y
      · rw [if_pos h3]
        have h7 := Real.pi_pos
        linarith
      · rw [if_neg h3, if_neg (not_lt.mpr hy)]

/-- C9: `calculate_distance` is symmetric (in particular to within `1e-6`),
vanishes on coincident points, and is always non-negative. -/
theorem calculate_distance_properties (lat1 lon1 lat2 lon2 : ℝ) :
    |calculate_distance lat1 lon1 lat2 lon2 - calculate_distance lat2 lon2 lat1 lon1|
      ≤ 1 / 1000000 ∧
    calculate_distance lat1 lon1 lat1 lon1 = 0 ∧
    0 ≤ calculate_distance lat1 lon1 lat2 lon2 := by
  refine ⟨?_, ?_, ?_⟩
  · unfold calculate_distance
    rw [haversineA_symm lat1 lon1 lat2 lon2, sub_self, abs_zero]
    norm_num
  · unfold calculate_distance
    rw [haversineA_self, Real.sqrt_zero, sub_zero, Real.sqrt_one]
    have h1 : atan2 0 1 = 0 := by
      unfold atan2
      rw [if_pos one_pos, zero_div, Real.arctan_zero]
    rw [h1]
    ring
  · have h1 := atan2_nonneg (Real.sqrt (haversineA lat1 lon1 lat2 lon2))
      (Real.sqrt (1 - haversineA lat1 lon1 lat2 lon2)) (Real.sqrt_nonneg _)
    unfold calculate_distance
    have h2 : (0:ℝ) ≤ 6371 := by norm_num
    nlinarith

/-- C2: for a successful login with username and source IP, a resolved
current location with (truthy) latitude and a longitude, and a prior-login
query result with (truthy) stored coordinates, the impossible-travel rule
returns an alert specification exactly when the Haversine distance from the
stored prior coordinates to the current ones is at least 1000 km and the
elapsed hours are strictly below `distance / 800`, and the dedup query finds
no unresolved `impossible_travel` alert for the username in the last hour. -/
theorem impossible_travel_rule_spec (getLoc : String → Option GeoLocation)
    (e : LogEntry) (db : List LogEntry) (alerts : List Alert)
    (loc : GeoLocation) (cur_lat cur_lon prev_lat prev_lon : ℝ) (p : LogEntry)
    (h1 : e.status = "success") (h2 : e.event_type = "login")
    (h3 : e.username ≠ "") (h4 : e.source_ip ≠ "")
    (h5 : getLoc e.source_ip = some loc)
    (h6 : loc.latitude = some cur_lat) (h7 : cur_lat ≠ 0)
    (h8 : loc.longitude = some cur_lon)
    (h9 : previousLoginQuery e db = some p)
    (h10 : p.latitude = some prev_lat) (h11 : prev_lat ≠ 0)
    (h12 : p.longitude = some prev_lon) (h13 : prev_lon ≠ 0) :
    (∃ ctx, impossible_travel_check getLoc e db alerts = some ctx) ↔
      (1000 ≤ calculate_distance prev_lat prev_lon cur_lat cur_lon ∧
        ((e.timestamp - p.timestamp : Int) : ℝ) / 3600 <
          calculate_distance prev_lat prev_lon cur_lat cur_lon / 800 ∧
        hasRecentTravelAlert e alerts = false) := by
  have hca : ¬(e.status ≠ "success" ∨ e.event_type ≠ "login") := by simp [h1, h2]
  have hcb : ¬(e.username = "" ∨ e.source_ip = "") := by simp [h3, h4]
  have hc3 : ¬(prev_lat = 0 ∨ prev_lon = 0) := by simp [h11, h13]
  have hstep : impossible_travel_check getLoc e db alerts =
      (if 1000 ≤ calculate_distance prev_lat prev_lon cur_lat cur_lon ∧
          ((e.timestamp - p.timestamp : Int) : ℝ) / 3600 <
            calculate_distance prev_lat prev_lon cur_lat cur_lon / 800 then
        (if hasRecentTravelAlert e alerts then none
         else some { username := e.username, previous_ip := p.source_ip,
                     current_ip := e.source_ip,
                     distance_km := calculate_distance prev_lat prev_lon cur_lat cur_lon,
                     time_hours := ((e.timestamp - p.timestamp : Int) : ℝ) / 3600,
                     previous_timestamp := p.timestamp })
       else none) := by
    unfold impossible_travel_check
    rw [if_neg hca, if_neg hcb]
    simp only [h5, h6, h9, h10, h12, h8]
    rw [if_neg h7, if_neg hc3]
  rw [hstep]
  by_cases hcond : 1000 ≤ calculate_distance prev_lat prev_lon cur_lat cur_lon ∧
      ((e.timestamp - p.timestamp : Int) : ℝ) / 3600 <
        calculate_distance prev_lat prev_lon cur_lat cur_lon / 800
  · rw [if_pos hcond]
    by_cases hr : hasRecentTravelAlert e alerts = true
    · rw [if_pos hr]
      constructor
      · rintro ⟨ctx, hctx⟩; cases hctx
      · rintro ⟨-, -, hf⟩; rw [hr] at hf; cases hf
    · rw [if_neg hr]
      constructor
      · intro _; exact ⟨hcond.1, hcond.2, by simpa using hr⟩
      · intro _; exact ⟨_, rfl⟩
  · rw [if_neg hcond]
    constructor
    · rintro ⟨ctx, hctx⟩; cases hctx
    · rintro ⟨ha, hb, -⟩; exact absurd ⟨ha, hb⟩ hcond

/-- Closed instance for the impossible-travel theorem: a fixed resolver, one
stored prior login, empty alert store. -/
theorem impossible_travel_rule_spec_witness :
    previousLoginQuery itEvent [itPrev] = some itPrev ∧
    itPrev.latitude = some 3 ∧ itPrev.longitude = some 4 ∧
    ((∃ ctx, impossible_travel_check (fun _ => some itLoc) itEvent [itPrev] [] = some ctx) ↔
      (1000 ≤ calculate_distance 3 4 1 2 ∧
        ((itEvent.timestamp - itPrev.timestamp : Int) : ℝ) / 3600 <
          calculate_distance 3 4 1 2 / 800 ∧
        hasRecentTravelAlert itEvent [] = false)) :=
  ⟨rfl, rfl, rfl,
    impossible_travel_rule_spec (fun _ => some itLoc) itEvent [itPrev] [] itLoc 1 2 3 4 itPrev
      rfl rfl (by decide) (by decide) rfl rfl one_ne_zero rfl rfl rfl
      (by norm_num) rfl (by norm_num)⟩

/-- C10: the impossible-travel rule yields no alert whenever the resolved
current location's latitude is the float zero, or the selected prior login's
latitude or longitude is the float zero — the Python truthiness tests treat
the value 0 as an absent coordinate. -/
theorem impossible_travel_zero_coordinates (getLoc : String → Option GeoLocation)
    (e : LogEntry) (db : List LogEntry) (alerts : List Alert) :
    (∀ loc, getLoc e.source_ip = some loc → loc.latitude = some 0 →
      impossible_travel_check getLoc e db alerts = none) ∧
    (∀ p, previousLoginQuery e db = some p →
      (p.latitude = some 0 ∨ p.longitude = some 0) →
      impossible_travel_check getLoc e db alerts = none) := by
  constructor
  · intro loc hloc hlat
    unfold impossible_travel_check
    by_cases hca : e.status ≠ "success" ∨ e.event_type ≠ "login"
    · rw [if_pos hca]
    · rw [if_neg hca]
      by_cases hcb : e.username = "" ∨ e.source_ip = ""
      · rw [if_pos hcb]
      · rw [if_neg hcb]
        simp only [hloc, hlat]
        simp
  · intro p hp hdisj
    unfold impossible_travel_check
    by_cases hca : e.status ≠ "success" ∨ e.event_type ≠ "login"
    · rw [if_pos hca]
    · rw [if_neg hca]
      by_cases hcb : e.username = "" ∨ e.source_ip = ""
      · rw [if_pos hcb]
      · rw [if_neg hcb]
        cases hg : getLoc e.source_ip with
        | none => simp [hg]
        | some loc2 =>
          simp only [hg]
          cases hl : loc2.latitude with
          | none => simp [hl]
          | some v =>
            simp only [hl]
            by_cases hv : v = 0
            · rw [if_pos hv]
            · rw [if_neg hv]
              simp only [hp]
              rcases hdisj with h0 | h0
              · rw [h0]
                cases ho : p.longitude with
                | none => simp [ho]
                | some w =>
                  simp only [ho]
                  simp
              · rw [h0]
                cases ho : p.latitude with
                | none => simp [ho]
                | some w =>
                  simp only [ho]
                  simp

/-- Closed instance for the zero-coordinate theorem: a resolver returning
latitude 0 suppresses the alert for an otherwise-triggering configuration. -/
theorem impossible_travel_zero_coordinates_witness :
    itLocZero.latitude = some 0 ∧
    impossible_travel_check (fun _ => some itLocZero) itEvent [itPrev] [] = none :=
  ⟨rfl,
    (impossible_travel_zero_coordinates (fun _ => some itLocZero) itEvent [itPrev] []).1
      itLocZero rfl rfl⟩

end SIEM
